import Mathlib

/-
  Verification development for the AIdentify repository
  (backend_api.py and detector_server.py).

  The Python source is shallowly embedded: pure numeric code is modelled
  over the rationals, stateful control flow (the URL acquisition protocol)
  is modelled as a function over an explicit environment describing the
  outcomes of the external effects (HTTP response, sniffed media kind,
  downloader attempts, detector responses), and the order in which the
  acquisition strategies run is recorded as an explicit step trace.
-/

namespace AIdentify

/-- One evidence record, as in the JSON responses of both services. -/
structure EvidenceItem where
  label : String
  value : String
  deriving DecidableEq, Repr

/-- The JSON shape returned to the client: verdict, confidence, evidence. -/
structure VerdictResult where
  verdict : String
  confidence : ℚ
  evidence : List EvidenceItem
  deriving DecidableEq, Repr

/- ------------------------------------------------------------------
   Character-list string helpers (kernel-computable embeddings of the
   Python string operations used by the source).
   ------------------------------------------------------------------ -/

/-- Does the list `s` start with the pattern `p`? (Python startswith.) -/
def startsWithList : List Char → List Char → Bool
  | [], _ => true
  | _ :: _, [] => false
  | p :: ps, c :: cs => p == c && startsWithList ps cs

/-- Does `s` contain `pat` as a contiguous sublist? (Python `in`.) -/
def hasSubList (pat : List Char) : List Char → Bool
  | [] => startsWithList pat []
  | c :: cs => startsWithList pat (c :: cs) || hasSubList pat cs

/-- Python substring test `pat in s`. -/
def strContainsSub (s pat : String) : Bool :=
  hasSubList pat.data s.data

/-- Python `s.startswith(p)`. -/
def strStartsWith (s p : String) : Bool :=
  startsWithList p.data s.data

/-- Python `s.endswith(p)`. -/
def strEndsWith (s p : String) : Bool :=
  startsWithList p.data.reverse s.data.reverse

/-- Python `s.lower()` (ASCII case is all that the source relies on). -/
def strLower (s : String) : String :=
  ⟨s.data.map Char.toLower⟩

/-- Auxiliary loop of non-overlapping left-to-right replacement: `k` is
the number of pattern characters still to be skipped after a match. -/
def replAux (pat repl : List Char) : List Char → ℕ → List Char
  | [], _ => []
  | c :: cs, 0 =>
    if startsWithList pat (c :: cs) && !pat.isEmpty then
      repl ++ replAux pat repl cs (pat.length - 1)
    else
      c :: replAux pat repl cs 0
  | _ :: cs, k + 1 => replAux pat repl cs k

/-- Python `s.replace(pat, repl)` for a non-empty pattern. -/
def strReplace (s pat repl : String) : String :=
  ⟨replAux pat.data repl.data s.data 0⟩

/- ------------------------------------------------------------------
   Numeric helpers: Python round (ties to even) and fixed-point
   formatting, over the rationals.
   ------------------------------------------------------------------ -/

/-- Round to the nearest integer, ties to even (Python `round`). -/
def roundHalfEven (q : ℚ) : ℤ :=
  let f : ℤ := Int.floor q
  let r : ℚ := q - (f : ℚ)
  if r < 1/2 then f
  else if 1/2 < r then f + 1
  else if f % 2 = 0 then f else f + 1

/-- Python `round(q, 2)`. -/
def roundTo2 (q : ℚ) : ℚ :=
  (roundHalfEven (q * 100) : ℚ) / 100

/-- Left-pad a digit string with zeros up to width `w`. -/
def padZeros (w : ℕ) (s : String) : String :=
  ⟨List.replicate (w - s.length) '0' ++ s.data⟩

/-- Fixed-point decimal rendering with `prec` digits after the point,
the embedding of the Python format strings of the shape `.02f` / `.1f`. -/
def fmtFixed (prec : ℕ) (q : ℚ) : String :=
  let scaled : ℤ := roundHalfEven (q * ((10 : ℚ) ^ prec))
  let sign : String := if scaled < 0 then "-" else ""
  let n : ℕ := scaled.natAbs
  let ip : ℕ := n / 10 ^ prec
  let fp : ℕ := n % 10 ^ prec
  sign ++ toString ip ++ "." ++ padZeros prec (toString fp)

/- ------------------------------------------------------------------
   detector_server.py: fusion, image analysis, video analysis.
   ------------------------------------------------------------------ -/

/-- `max(0.0, min(1.0, score))` from both analyzers. -/
def clamp01 (s : ℚ) : ℚ :=
  max 0 (min 1 s)

/-- The verdict mapping shared by both analyzers:
`"likelyAI" if score > 0.7 else ("likelyReal" if score < 0.3 else "inconclusive")`. -/
def verdictOf (score : ℚ) : String :=
  if score > 7/10 then "likelyAI"
  else if score < 3/10 then "likelyReal"
  else "inconclusive"

/-- `round(abs(score - 0.5) * 2, 2)` from both analyzers. -/
def confOf (score : ℚ) : ℚ :=
  roundTo2 (|score - 1/2| * 2)

/-- The image fusion of `analyze_image_pil`: sequential threshold
increments starting from the 0.5 base, then the clamp. -/
def imageScore (ela lap hf : ℚ) : ℚ :=
  let s0 : ℚ := 1/2
  let s1 : ℚ := if ela ≥ 60/100 then s0 + 20/100
                else if ela ≥ 40/100 then s0 + 10/100
                else s0
  let s2 : ℚ := if lap < 40 then s1 + 10/100 else s1
  let s3 : ℚ := if hf < 12/100 then s2 + 5/100 else s2
  clamp01 s3

/-- `analyze_image_pil`: the three signal extractions run in order inside
a try block; the evidence items are appended only after all three
succeeded, so a raising extraction is caught with an empty evidence list
and produces `inconclusive/0.0` plus a single Error item. The signal
extractions themselves read pixels and are passed in as `Except` values. -/
def analyze_image_pil (ela lap hf : Except String ℚ) : VerdictResult :=
  match ela with
  | .error e => ⟨"inconclusive", 0, [⟨"Error", e⟩]⟩
  | .ok elaV =>
    match lap with
    | .error e => ⟨"inconclusive", 0, [⟨"Error", e⟩]⟩
    | .ok lapV =>
      match hf with
      | .error e => ⟨"inconclusive", 0, [⟨"Error", e⟩]⟩
      | .ok hfV =>
        let evidence : List EvidenceItem :=
          [⟨"ELA", fmtFixed 2 elaV⟩,
           ⟨"Laplacian", fmtFixed 1 lapV⟩,
           ⟨"HighFreq", fmtFixed 2 hfV⟩]
        let score := imageScore elaV lapV hfV
        ⟨verdictOf score, confOf score, evidence⟩

/-- The `/analyze/image` route of the detector: it reads the upload
bytes and decodes them with `Image.open(io.BytesIO(b)).convert("RGB")`
OUTSIDE any try, then calls `analyze_image_pil` (whose own try catches
extraction errors). The outer `Except` is the decode step: a raising
decode propagates out of the route to the caller. The successfully
decoded image is abstracted by the outcomes of the three signal
extractions that `analyze_image_pil` will perform on it. -/
def analyze_image
    (decoded : Except String (Except String ℚ × Except String ℚ × Except String ℚ)) :
    Except String VerdictResult :=
  match decoded with
  | .error e => .error e
  | .ok (ela, lap, hf) => .ok (analyze_image_pil ela lap hf)

/-- Per-frame signals gathered by the loop in `analyze_video_file`. -/
structure FrameSignals where
  lap : ℚ
  hf : ℚ
  faces : ℕ
  deriving DecidableEq, Repr

/-- The video fusion of `analyze_video_file`. -/
def videoScore (lapAvg hfAvg : ℚ) (faces : ℕ) : ℚ :=
  let s0 : ℚ := 1/2
  let s1 : ℚ := if lapAvg < 60 then s0 + 15/100 else s0
  let s2 : ℚ := if hfAvg < 14/100 then s1 + 10/100 else s1
  let s3 : ℚ := if faces = 0 then s2 + 5/100 else s2
  clamp01 s3

/-- `float(np.mean(xs)) if xs else 0.0`. -/
def avgOrZero (xs : List ℚ) : ℚ :=
  if xs = [] then 0 else xs.sum / (xs.length : ℚ)

/-- `analyze_video_file`: averages the per-frame sharpness and
high-frequency signals (0.0 when no frame decoded), sums the face counts,
fuses, and emits the four video evidence items; a raising extraction is
caught exactly as in the image analyzer. The sampled frame signals (or
the raised message) are passed in as an `Except` value. -/
def analyze_video_file (frames : Except String (List FrameSignals)) : VerdictResult :=
  match frames with
  | .error e => ⟨"inconclusive", 0, [⟨"Error", e⟩]⟩
  | .ok frs =>
    let laps := frs.map FrameSignals.lap
    let hfs := frs.map FrameSignals.hf
    let faces := (frs.map FrameSignals.faces).sum
    let lapAvg := avgOrZero laps
    let hfAvg := avgOrZero hfs
    let evidence : List EvidenceItem :=
      [⟨"Video ELA avg", "0.01"⟩,
       ⟨"Video HighFreq avg", fmtFixed 2 hfAvg⟩,
       ⟨"Video Laplacian avg", fmtFixed 1 lapAvg⟩,
       ⟨"Faces (sum)", toString faces⟩]
    let score := videoScore lapAvg hfAvg faces
    ⟨verdictOf score, confOf score, evidence⟩

/- ------------------------------------------------------------------
   backend_api.py: media-type sniffing result, detector proxy responses,
   the URL acquisition protocol and the upload proxy.
   ------------------------------------------------------------------ -/

/-- Result of `sniff_media_type` on a local file. -/
inductive MediaKind where
  | image
  | video
  | unknown
  deriving DecidableEq, Repr

/-- A JSON response of the local detector service, as consumed by
`post_to_detector` (the `evidence` key may in principle be absent, which
the merging code guards for with `"evidence" in res` / `res.get`). -/
structure DetResponse where
  verdict : String
  confidence : ℚ
  evidence : Option (List EvidenceItem)
  deriving DecidableEq, Repr

/-- The extension allowlist from `try_direct_get`. -/
def mediaExts : List String :=
  [".mp4", ".mov", ".mkv", ".jpg", ".jpeg", ".png", ".webp", ".bmp", ".gif"]

/-- What the HTTP GET of `try_direct_get` observed (status, declared
Content-Type, and the byte size of the streamed body). -/
structure HttpResponse where
  status : ℕ
  contentType : String
  size : ℕ
  deriving DecidableEq, Repr

/-- `try_direct_get`: accepts only status 200 with a content type
containing "video" or "image", or a URL whose lowercased form ends in a
known media extension; on acceptance the body is streamed to the temp
file (we return its size); any exception (`resp = none`) yields `none`. -/
def try_direct_get (url : String) (resp : Option HttpResponse) : Option ℕ :=
  match resp with
  | none => none
  | some r =>
    if r.status == 200
        && (strContainsSub r.contentType "video"
            || strContainsSub r.contentType "image"
            || mediaExts.any (fun ext => strEndsWith (strLower url) ext)) then
      some r.size
    else
      none

/-- Outcome of one yt-dlp extraction attempt: a downloaded file whose
path exists, a completed run with no surviving file, or a raise. -/
inductive DlAttempt where
  | found (path : String)
  | notFound
  | raised (err : String)
  deriving DecidableEq, Repr

/-- `ytdlp_download`: the primary-format attempt, then the relaxed
`"best"` retry. `last_err` is assigned only by the except-branch of the
first attempt; the except-branch of the retry is `pass`. When neither
attempt returns a surviving file, `last_err` is raised when set,
otherwise the function returns `None`. -/
def ytdlp_download (attempt1 attempt2 : DlAttempt) : Except String (Option String) :=
  let lastErr : Option String :=
    match attempt1 with
    | .raised e => some e
    | _ => none
  match attempt1 with
  | .found p => .ok (some p)
  | _ =>
    match attempt2 with
    | .found p => .ok (some p)
    | _ =>
      match lastErr with
      | some e => .error e
      | none => .ok none

/-- The sanitisation applied to a downloader error in `analyze_url`:
`str(e).replace("\u001b[0;31m", "").replace("\u001b[0m", "")`. -/
def sanitize_error (s : String) : String :=
  strReplace (strReplace s "\x1b[0;31m" "") "\x1b[0m" ""

/-- The acquisition strategies, in the order they were invoked. -/
inductive Step where
  | directFetch
  | downloader
  deriving DecidableEq, Repr

/-- The final lines of `analyze_url`: when no evidence label starts with
"Video" and none equals "ELA", a `File: Unsupported` item is appended;
the initial `inconclusive/0.0` verdict is returned. -/
def finish_url (ev : List EvidenceItem) : VerdictResult :=
  if ev.any (fun e => strStartsWith e.label "Video" || e.label == "ELA") then
    ⟨"inconclusive", 0, ev⟩
  else
    ⟨"inconclusive", 0, ev ++ [⟨"File", "Unsupported"⟩]⟩

/-- Everything the `analyze_url` request handler can observe about the
outside world: the URL, the direct GET outcome, the sniffed kind of the
directly fetched file, the two downloader attempts with the size and
sniffed kind of a downloaded file, and the two detector endpoints. -/
structure UrlEnv where
  url : String
  httpResp : Option HttpResponse
  directKind : MediaKind
  attempt1 : DlAttempt
  attempt2 : DlAttempt
  ytdlpSize : ℕ
  ytdlpKind : MediaKind
  detImage : DetResponse
  detVideo : DetResponse
  deriving Repr

/-- Path B of `analyze_url` (the yt-dlp step plus the shared epilogue),
entered with the evidence accumulated so far. The detector response in
this path is merged with `r["evidence"] = res["evidence"] + r.get("evidence", [])`,
which prepends the acquisition evidence to the analyzer evidence. -/
def pathB (env : UrlEnv) (ev : List EvidenceItem) (steps : List Step) :
    VerdictResult × List Step :=
  let steps2 := steps ++ [Step.downloader]
  match ytdlp_download env.attempt1 env.attempt2 with
  | .ok (some _) =>
    if env.ytdlpSize > 0 then
      let ev1 := ev ++ [⟨"Fetch", "yt-dlp downloaded"⟩]
      match env.ytdlpKind with
      | .image =>
        let ev2 := ev1 ++ [⟨"Source", "Local detector"⟩]
        (⟨env.detImage.verdict, env.detImage.confidence,
          ev2 ++ env.detImage.evidence.getD []⟩, steps2)
      | .video =>
        let ev2 := ev1 ++ [⟨"Source", "Local detector"⟩]
        (⟨env.detVideo.verdict, env.detVideo.confidence,
          ev2 ++ env.detVideo.evidence.getD []⟩, steps2)
      | .unknown =>
        (finish_url (ev1 ++ [⟨"File", "Unsupported"⟩]), steps2)
    else
      (finish_url (ev ++ [⟨"Fetch", "No downloadable video stream"⟩]), steps2)
  | .ok none =>
    (finish_url (ev ++ [⟨"Fetch", "No downloadable video stream"⟩]), steps2)
  | .error e =>
    (finish_url (ev ++ [⟨"Fetch", "yt-dlp error: " ++ sanitize_error e⟩]), steps2)

/-- `analyze_url`: path A (direct GET) first; when it produced a
non-empty file of image or video kind, the detector is consulted and the
response is merged with `post_to_detector(...) | {"evidence": res["evidence"]}`,
whose right operand wins for the `evidence` key, so the returned evidence
is exactly the acquisition-stage evidence. Otherwise control falls
through to path B. The second component records which acquisition
strategies ran, in order. -/
def analyze_url (env : UrlEnv) : VerdictResult × List Step :=
  match try_direct_get env.url env.httpResp with
  | some size =>
    if size > 0 then
      let ev1 : List EvidenceItem := [⟨"Fetch", "Direct GET"⟩]
      match env.directKind with
      | .image =>
        (⟨env.detImage.verdict, env.detImage.confidence,
          ev1 ++ [⟨"Source", "Local detector"⟩]⟩, [Step.directFetch])
      | .video =>
        (⟨env.detVideo.verdict, env.detVideo.confidence,
          ev1 ++ [⟨"Source", "Local detector"⟩]⟩, [Step.directFetch])
      | .unknown => pathB env ev1 [Step.directFetch]
    else
      pathB env [] [Step.directFetch]
  | none => pathB env [] [Step.directFetch]

/-- `analyze_upload`: sniff the saved file, forward to the matching
detector route with a `Source: Local detector` item prepended to the
analyzer evidence, or short-circuit for an unknown kind. The second
component records whether a detector route (an analyzer) was invoked. -/
def analyze_upload (kind : MediaKind) (detImage detVideo : DetResponse) :
    VerdictResult × Bool :=
  match kind with
  | .image =>
    (⟨detImage.verdict, detImage.confidence,
      match detImage.evidence with
      | some evs => [⟨"Source", "Local detector"⟩] ++ evs
      | none => [⟨"Source", "Local detector"⟩]⟩, true)
  | .video =>
    (⟨detVideo.verdict, detVideo.confidence,
      match detVideo.evidence with
      | some evs => [⟨"Source", "Local detector"⟩] ++ evs
      | none => [⟨"Source", "Local detector"⟩]⟩, true)
  | .unknown =>
    (⟨"inconclusive", 0, [⟨"File", "Unsupported"⟩]⟩, false)

/- ------------------------------------------------------------------
   Spec-side definitions (written from the words of the specification,
   for comparison with the source-side fusion definitions above).
   ------------------------------------------------------------------ -/

/-- The image fusion rule as the spec words it: 0.5 base plus the sum of
the increments of exactly the rules that fire, clamped to [0,1]. -/
def specImageScore (ela lap hf : ℚ) : ℚ :=
  clamp01 (1/2
    + (if ela ≥ 60/100 then 20/100 else if ela ≥ 40/100 then 10/100 else 0)
    + (if lap < 40 then 10/100 else 0)
    + (if hf < 12/100 then 5/100 else 0))

/-- The video fusion rule as the spec words it. -/
def specVideoScore (lapAvg hfAvg : ℚ) (faces : ℕ) : ℚ :=
  clamp01 (1/2
    + (if lapAvg < 60 then 15/100 else 0)
    + (if hfAvg < 14/100 then 10/100 else 0)
    + (if faces = 0 then 5/100 else 0))

/- ------------------------------------------------------------------
   Helper lemmas.
   ------------------------------------------------------------------ -/

theorem avgOrZero_nil : avgOrZero [] = 0 := by
  simp [avgOrZero]

theorem clamp01_mono {a b : ℚ} (h : a ≤ b) : clamp01 a ≤ clamp01 b := by
  unfold clamp01
  exact max_le_max le_rfl (min_le_min le_rfl h)

theorem clamp01_half_le {s : ℚ} (h : 1/2 ≤ s) : 1/2 ≤ clamp01 s := by
  unfold clamp01
  exact le_max_of_le_right (le_min (by norm_num) h)

theorem imageScore_eq (ela lap hf : ℚ) :
    imageScore ela lap hf = specImageScore ela lap hf := by
  unfold imageScore specImageScore
  split_ifs <;> norm_num

theorem videoScore_eq (lapAvg hfAvg : ℚ) (faces : ℕ) :
    videoScore lapAvg hfAvg faces = specVideoScore lapAvg hfAvg faces := by
  unfold videoScore specVideoScore
  split_ifs <;> norm_num

theorem verdictOf_likelyAI {s : ℚ} : verdictOf s = "likelyAI" ↔ 7/10 < s := by
  unfold verdictOf
  split_ifs with h1 h2
  · exact iff_of_true rfl h1
  · exact iff_of_false (by decide) h1
  · exact iff_of_false (by decide) h1

theorem verdictOf_likelyReal {s : ℚ} : verdictOf s = "likelyReal" ↔ s < 3/10 := by
  unfold verdictOf
  split_ifs with h1 h2
  · exact iff_of_false (by decide) (not_lt.mpr (le_of_lt (lt_trans (by norm_num) h1)))
  · exact iff_of_true rfl h2
  · exact iff_of_false (by decide) h2

theorem verdictOf_inconclusive {s : ℚ} :
    verdictOf s = "inconclusive" ↔ s ≤ 7/10 ∧ 3/10 ≤ s := by
  unfold verdictOf
  split_ifs with h1 h2
  · exact iff_of_false (by decide) (fun hc => absurd h1 (not_lt.mpr hc.1))
  · exact iff_of_false (by decide) (fun hc => absurd h2 (not_lt.mpr hc.2))
  · exact iff_of_true rfl ⟨le_of_not_lt h1, le_of_not_lt h2⟩

theorem roundHalfEven_intCast (n : ℤ) : roundHalfEven (n : ℚ) = n := by
  unfold roundHalfEven
  norm_num

theorem confOf_eval : confOf (4/5) = 3/5 := by
  unfold confOf roundTo2
  rw [show |(4:ℚ)/5 - 1/2| = 3/10 by rw [abs_of_nonneg] <;> norm_num]
  rw [show ((3:ℚ)/10 * 2 * 100) = ((60:ℤ):ℚ) by norm_num]
  rw [roundHalfEven_intCast]
  norm_num

theorem fmtFixed_two_zero : fmtFixed 2 (0:ℚ) = "0.00" := by
  simp only [fmtFixed]
  rw [show ((0:ℚ) * (10:ℚ) ^ (2:ℕ)) = ((0:ℤ):ℚ) by norm_num]
  rw [roundHalfEven_intCast]
  decide

theorem fmtFixed_one_zero : fmtFixed 1 (0:ℚ) = "0.0" := by
  simp only [fmtFixed]
  rw [show ((0:ℚ) * (10:ℚ) ^ (1:ℕ)) = ((0:ℤ):ℚ) by norm_num]
  rw [roundHalfEven_intCast]
  decide

theorem videoScore_zero : videoScore 0 0 0 = 4/5 := by
  rw [videoScore_eq]
  unfold specVideoScore clamp01
  norm_num [min_def, max_def]

theorem imageScore_ge_half (ela lap hf : ℚ) : 1/2 ≤ imageScore ela lap hf := by
  rw [imageScore_eq]
  unfold specImageScore
  apply clamp01_half_le
  split_ifs <;> norm_num

theorem videoScore_ge_half (lapAvg hfAvg : ℚ) (faces : ℕ) :
    1/2 ≤ videoScore lapAvg hfAvg faces := by
  rw [videoScore_eq]
  unfold specVideoScore
  apply clamp01_half_le
  split_ifs <;> norm_num

theorem verdictOf_ne_likelyReal {s : ℚ} (h : 1/2 ≤ s) :
    verdictOf s ≠ "likelyReal" := by
  rw [ne_eq, verdictOf_likelyReal]
  exact not_lt.mpr (le_trans (by norm_num) h)

theorem pathB_snd (env : UrlEnv) (ev : List EvidenceItem) (steps : List Step) :
    (pathB env ev steps).2 = steps ++ [Step.downloader] := by
  unfold pathB
  cases ytdlp_download env.attempt1 env.attempt2 with
  | error e => rfl
  | ok o =>
    cases o with
    | none => rfl
    | some p =>
      by_cases h : env.ytdlpSize > 0
      · simp only [if_pos h]
        cases env.ytdlpKind <;> rfl
      · simp only [if_neg h]

theorem finish_url_verdict (ev : List EvidenceItem) :
    (finish_url ev).verdict = "inconclusive" := by
  unfold finish_url
  split <;> rfl

theorem finish_url_mem {x : EvidenceItem} {ev : List EvidenceItem} (h : x ∈ ev) :
    x ∈ (finish_url ev).evidence := by
  unfold finish_url
  split
  · exact h
  · exact List.mem_append.mpr (Or.inl h)

/- ------------------------------------------------------------------
   Concrete environments used by the claim theorems.
   ------------------------------------------------------------------ -/

/-- A direct-fetch video scenario: 200 / video/mp4 with a non-empty
body, the fetched file sniffs as video, and the detector answers with
the four video evidence items. -/
def envC1 : UrlEnv where
  url := "https://example.com/x.mp4"
  httpResp := some ⟨200, "video/mp4", 9⟩
  directKind := MediaKind.video
  attempt1 := DlAttempt.notFound
  attempt2 := DlAttempt.notFound
  ytdlpSize := 0
  ytdlpKind := MediaKind.unknown
  detImage := ⟨"inconclusive", 0, some []⟩
  detVideo := ⟨"likelyAI", 3/5,
    some [⟨"Video ELA avg", "0.01"⟩, ⟨"Video HighFreq avg", "0.05"⟩,
          ⟨"Video Laplacian avg", "35.2"⟩, ⟨"Faces (sum)", "1"⟩]⟩

/-- A 200 / image/jpeg response whose body is not decodable media, so
the fetched non-empty file sniffs as `unknown`. -/
def envC2 : UrlEnv where
  url := "https://example.com/page"
  httpResp := some ⟨200, "image/jpeg", 5⟩
  directKind := MediaKind.unknown
  attempt1 := DlAttempt.notFound
  attempt2 := DlAttempt.notFound
  ytdlpSize := 0
  ytdlpKind := MediaKind.unknown
  detImage := ⟨"inconclusive", 0, some []⟩
  detVideo := ⟨"inconclusive", 0, some []⟩

/-- A 200 / image/jpeg response with a real JPEG body: the fetched file
sniffs as image. -/
def envC2w : UrlEnv where
  url := "https://example.com/x.jpg"
  httpResp := some ⟨200, "image/jpeg", 7⟩
  directKind := MediaKind.image
  attempt1 := DlAttempt.notFound
  attempt2 := DlAttempt.notFound
  ytdlpSize := 0
  ytdlpKind := MediaKind.unknown
  detImage := ⟨"inconclusive", 0, some [⟨"ELA", "0.10"⟩]⟩
  detVideo := ⟨"inconclusive", 0, some []⟩

/-- Direct fetch raises; the downloader raises an error carrying an ANSI
colour sequence that is not among the two sequences the code strips. -/
def envC7 : UrlEnv where
  url := "https://example.com/clip"
  httpResp := none
  directKind := MediaKind.unknown
  attempt1 := DlAttempt.raised "\x1b[1;33mWARNING\x1b[0m boom"
  attempt2 := DlAttempt.raised "retry failed"
  ytdlpSize := 0
  ytdlpKind := MediaKind.unknown
  detImage := ⟨"inconclusive", 0, some []⟩
  detVideo := ⟨"inconclusive", 0, some []⟩

/-- Direct fetch raises; the downloader raises the canonical yt-dlp
error message, whose ANSI content is exactly the two stripped
sequences. -/
def envC7w : UrlEnv where
  url := "https://example.com/clip2"
  httpResp := none
  directKind := MediaKind.unknown
  attempt1 := DlAttempt.raised "\x1b[0;31mERROR:\x1b[0m no formats"
  attempt2 := DlAttempt.notFound
  ytdlpSize := 0
  ytdlpKind := MediaKind.unknown
  detImage := ⟨"inconclusive", 0, some []⟩
  detVideo := ⟨"inconclusive", 0, some []⟩

/- ------------------------------------------------------------------
   Claim theorems.
   ------------------------------------------------------------------ -/

/-- C1: claimed that for URL requests where acquisition succeeds and an
analyzer runs, the returned evidence is the acquisition evidence
followed by all the analyzer evidence. On the direct-fetch path the code
merges with `post_to_detector(...) | {"evidence": res["evidence"]}`,
whose right operand wins, so the analyzer evidence is dropped: the
direct-fetch video scenario returns only the two acquisition items and
none of the four video evidence items the detector supplied. -/
theorem claim_C1_direct_fetch_drops_analyzer_evidence :
    (analyze_url envC1).1 =
      ⟨"likelyAI", 3/5, [⟨"Fetch", "Direct GET"⟩, ⟨"Source", "Local detector"⟩]⟩ := by
  have h : try_direct_get envC1.url envC1.httpResp = some 9 := by decide
  unfold analyze_url
  rw [h]
  norm_num [envC1]

/-- C2 (amended): the direct-fetch step always runs before the
downloader step, and when the direct fetch produced a non-empty file
that sniffs as image or video the request is handled entirely by the
direct-fetch path, with evidence beginning with the
`Fetch: Direct GET` item and with the downloader never invoked; when
the non-empty file sniffs as `unknown` the code does fall through to
the downloader (the counterexample), which is the one deviation from
the claim as stated. -/
theorem claim_C2_order_and_skip :
    (∀ env : UrlEnv,
      (analyze_url env).2 = [Step.directFetch] ∨
      (analyze_url env).2 = [Step.directFetch, Step.downloader]) ∧
    (∀ env : UrlEnv, ∀ n : ℕ,
      try_direct_get env.url env.httpResp = some n → 0 < n →
      env.directKind ≠ MediaKind.unknown →
      (analyze_url env).2 = [Step.directFetch] ∧
      (analyze_url env).1.evidence.head? = some ⟨"Fetch", "Direct GET"⟩) := by
  constructor
  · intro env
    unfold analyze_url
    cases try_direct_get env.url env.httpResp with
    | none => exact Or.inr (by simp [pathB_snd])
    | some size =>
      by_cases h : size > 0
      · simp only [if_pos h]
        cases env.directKind
        · exact Or.inl rfl
        · exact Or.inl rfl
        · exact Or.inr (by simp [pathB_snd])
      · simp only [if_neg h]
        exact Or.inr (by simp [pathB_snd])
  · intro env n hd hn hk
    unfold analyze_url
    rw [hd]
    simp only [if_pos hn]
    cases hk2 : env.directKind with
    | image => exact ⟨rfl, rfl⟩
    | video => exact ⟨rfl, rfl⟩
    | unknown => exact absurd hk2 hk

/-- C2 counterexample: a 200 / image/jpeg URL whose body is not
decodable media: the direct fetch writes a non-empty file, yet the
downloader step is still invoked. -/
theorem claim_C2_counterexample :
    try_direct_get envC2.url envC2.httpResp = some 5 ∧ 0 < 5 ∧
    Step.downloader ∈ (analyze_url envC2).2 := by
  refine ⟨by decide, by decide, ?_⟩
  decide

/-- C2 witness: the image/jpeg scenario with a decodable body is handled
entirely by the direct-fetch step, with the `Fetch: Direct GET` evidence
item recorded first. -/
theorem claim_C2_witness :
    try_direct_get envC2w.url envC2w.httpResp = some 7 ∧ 0 < 7 ∧
    envC2w.directKind ≠ MediaKind.unknown ∧
    (analyze_url envC2w).2 = [Step.directFetch] ∧
    (analyze_url envC2w).1.evidence.head? = some ⟨"Fetch", "Direct GET"⟩ :=
  ⟨by decide, by decide, by decide,
    (claim_C2_order_and_skip.2 envC2w 7 (by decide) (by decide) (by decide)).1,
    (claim_C2_order_and_skip.2 envC2w 7 (by decide) (by decide) (by decide)).2⟩

/-- C3 counterexample: when both downloader attempts raise, the error
propagated is not the retry error. -/
theorem claim_C3_counterexample :
    ytdlp_download (DlAttempt.raised "first error") (DlAttempt.raised "second error") ≠
      Except.error "second error" := by
  intro h
  injection h with h2
  exact absurd h2 (by decide)

/-- C3 (amended): when the primary attempt raises and the relaxed retry
also raises, the propagated error is the first raised error; only the
primary attempt assigns `last_err`, the except-branch of the retry is
`pass`. -/
theorem claim_C3_amended_first_error (e1 e2 : String) :
    ytdlp_download (DlAttempt.raised e1) (DlAttempt.raised e2) = Except.error e1 := rfl

/-- C4: the fused score equals 0.5 plus the increments of exactly the
listed rules that fire, clamped to [0,1]; the verdict is likelyAI iff
score > 0.7, likelyReal iff score < 0.3, otherwise inconclusive; the
confidence equals |score - 0.5| times 2 rounded to 2 decimals; and the
two analyzers produce their verdict and confidence through exactly these
maps applied to the fused score. -/
theorem claim_C4_fusion_spec :
    (∀ ela lap hf : ℚ, imageScore ela lap hf = specImageScore ela lap hf) ∧
    (∀ lapAvg hfAvg : ℚ, ∀ faces : ℕ,
      videoScore lapAvg hfAvg faces = specVideoScore lapAvg hfAvg faces) ∧
    (∀ s : ℚ,
      (verdictOf s = "likelyAI" ↔ 7/10 < s) ∧
      (verdictOf s = "likelyReal" ↔ s < 3/10) ∧
      (verdictOf s = "inconclusive" ↔ s ≤ 7/10 ∧ 3/10 ≤ s) ∧
      confOf s = roundTo2 (|s - 1/2| * 2)) ∧
    (∀ a b c : ℚ,
      (analyze_image_pil (.ok a) (.ok b) (.ok c)).verdict = verdictOf (imageScore a b c) ∧
      (analyze_image_pil (.ok a) (.ok b) (.ok c)).confidence = confOf (imageScore a b c)) := by
  refine ⟨imageScore_eq, videoScore_eq, ?_, ?_⟩
  · intro s
    exact ⟨verdictOf_likelyAI, verdictOf_likelyReal, verdictOf_inconclusive, rfl⟩
  · intro a b c
    exact ⟨rfl, rfl⟩

/-- Any extraction error inside `analyze_image_pil` is caught and
converted into inconclusive/0.0 with an Error evidence item appended to
the evidence accumulated so far (which is empty, since the source
appends the three signal items only after all three signals are
computed). -/
theorem analyze_image_pil_error_caught (ela lap hf : Except String ℚ)
    (h : (∃ e, ela = .error e) ∨ (∃ e, lap = .error e) ∨ (∃ e, hf = .error e)) :
    ∃ e, analyze_image_pil ela lap hf = ⟨"inconclusive", 0, [⟨"Error", e⟩]⟩ := by
  cases ela with
  | error e => exact ⟨e, rfl⟩
  | ok va =>
    cases lap with
    | error e => exact ⟨e, rfl⟩
    | ok vb =>
      cases hf with
      | error e => exact ⟨e, rfl⟩
      | ok vc =>
        rcases h with ⟨e, he⟩ | ⟨e, he⟩ | ⟨e, he⟩ <;> exact absurd he (by simp)

/-- C5: the claim says image analysis never propagates an exception to
the caller. The signal extractions inside `analyze_image_pil` are indeed
caught (second conjunct: a decoded image always yields an `ok`
VerdictResult), but the decode `Image.open(io.BytesIO(b)).convert("RGB")`
in the `/analyze/image` route sits outside any try, so an image that
passes the sniffer probe yet raises while decoding propagates its
exception out of the route, contradicting the claim and the spec rule
that a decode error must never crash the request. -/
theorem claim_C5_decode_error_escapes :
    analyze_image (Except.error "truncated image data") =
      Except.error "truncated image data" ∧
    (∀ ela lap hf : Except String ℚ,
      analyze_image (Except.ok (ela, lap, hf)) = Except.ok (analyze_image_pil ela lap hf)) :=
  ⟨rfl, fun _ _ _ => rfl⟩

/-- C6: a video input with zero decodable frames does not raise: the
averaged sharpness and high-frequency signals are 0.0, the face-count
evidence item is "0", and the result is the high AI-likely verdict with
confidence 0.6. -/
theorem claim_C6_zero_frames :
    analyze_video_file (Except.ok []) =
      ⟨"likelyAI", 3/5,
        [⟨"Video ELA avg", "0.01"⟩, ⟨"Video HighFreq avg", "0.00"⟩,
         ⟨"Video Laplacian avg", "0.0"⟩, ⟨"Faces (sum)", "0"⟩]⟩ ∧
    avgOrZero [] = 0 := by
  constructor
  · unfold analyze_video_file
    simp only [List.map_nil, List.sum_nil, avgOrZero_nil]
    rw [videoScore_zero]
    rw [show verdictOf (4/5) = "likelyAI" from verdictOf_likelyAI.mpr (by norm_num)]
    rw [confOf_eval, fmtFixed_two_zero, fmtFixed_one_zero]
    rw [show toString (0:ℕ) = "0" from by decide]
  · exact avgOrZero_nil

/-- C7 counterexample: a downloader error carrying the ANSI sequence
ESC[1;33m, which the code does not strip, reaches the evidence with the
raw escape character still present. -/
theorem claim_C7_counterexample :
    ((analyze_url envC7).1.evidence.any
      (fun it => it.value.data.contains '\x1b')) = true := by
  decide

/-- C7 (amended): when the direct fetch fails and the downloader
invocation raises, the request returns the initial inconclusive verdict
and evidence containing the error message with the two ANSI sequences
ESC[0;31m and ESC[0m removed; other ANSI sequences are not stripped. -/
theorem claim_C7_amended_sanitized (env : UrlEnv) (e : String)
    (hd : try_direct_get env.url env.httpResp = none)
    (he : ytdlp_download env.attempt1 env.attempt2 = Except.error e) :
    EvidenceItem.mk "Fetch" ("yt-dlp error: " ++ sanitize_error e) ∈
      (analyze_url env).1.evidence ∧
    (analyze_url env).1.verdict = "inconclusive" := by
  unfold analyze_url
  rw [hd]
  unfold pathB
  rw [he]
  constructor
  · exact finish_url_mem (by simp)
  · exact finish_url_verdict _

/-- C7 witness: the canonical yt-dlp error message, whose ANSI content
is exactly the two stripped sequences, arrives in the evidence fully
sanitized. -/
theorem claim_C7_witness :
    try_direct_get envC7w.url envC7w.httpResp = none ∧
    ytdlp_download envC7w.attempt1 envC7w.attempt2 =
      Except.error "\x1b[0;31mERROR:\x1b[0m no formats" ∧
    sanitize_error "\x1b[0;31mERROR:\x1b[0m no formats" = "ERROR: no formats" ∧
    EvidenceItem.mk "Fetch"
        ("yt-dlp error: " ++ sanitize_error "\x1b[0;31mERROR:\x1b[0m no formats") ∈
      (analyze_url envC7w).1.evidence :=
  ⟨rfl, rfl, by decide, (claim_C7_amended_sanitized envC7w _ rfl rfl).1⟩

/-- C8: an upload whose sniffed kind is unknown short-circuits to
inconclusive/0.0 with the single Unsupported evidence item, and no
analyzer is invoked (the boolean component is false), for every pair of
detector behaviours. -/
theorem claim_C8_unknown_short_circuit (dI dV : DetResponse) :
    analyze_upload MediaKind.unknown dI dV =
      (⟨"inconclusive", 0, [⟨"File", "Unsupported"⟩]⟩, false) := rfl

/-- C9: raising the reconstruction-error signal past 0.60 while holding
the other image signals fixed never decreases the fused score. -/
theorem claim_C9_recon_monotone (ela1 ela2 lap hf : ℚ)
    (h6 : 60/100 < ela1) (hle : ela2 ≤ ela1) :
    imageScore ela2 lap hf ≤ imageScore ela1 lap hf := by
  rw [imageScore_eq, imageScore_eq]
  unfold specImageScore
  apply clamp01_mono
  rw [if_pos (le_of_lt h6)]
  have h2 : (if ela2 ≥ 60/100 then (20:ℚ)/100 else if ela2 ≥ 40/100 then 10/100 else 0)
      ≤ 20/100 := by
    split_ifs <;> norm_num
  linarith

/-- C9 witness: a concrete pair of image signal vectors differing only
in the reconstruction-error signal. -/
theorem claim_C9_witness :
    (60:ℚ)/100 < 7/10 ∧ (1:ℚ)/2 ≤ 7/10 ∧
    imageScore (1/2) 100 (2/10) ≤ imageScore (7/10) 100 (2/10) :=
  ⟨by norm_num, by norm_num,
    claim_C9_recon_monotone (7/10) (1/2) 100 (2/10) (by norm_num) (by norm_num)⟩

/-- C10: every fusion rule adds a non-negative increment to the 0.5
base, so both fused scores are at least 0.5 and neither analyzer ever
returns the likelyReal verdict, on successful and on raising inputs
alike. -/
theorem claim_C10_no_likelyReal :
    (∀ ela lap hf : ℚ, 1/2 ≤ imageScore ela lap hf) ∧
    (∀ lapAvg hfAvg : ℚ, ∀ faces : ℕ, 1/2 ≤ videoScore lapAvg hfAvg faces) ∧
    (∀ ela lap hf : Except String ℚ,
      (analyze_image_pil ela lap hf).verdict ≠ "likelyReal") ∧
    (∀ frames : Except String (List FrameSignals),
      (analyze_video_file frames).verdict ≠ "likelyReal") := by
  refine ⟨imageScore_ge_half, videoScore_ge_half, ?_, ?_⟩
  · intro ela lap hf
    cases ela with
    | error e => exact (by decide : ("inconclusive" : String) ≠ "likelyReal")
    | ok va =>
      cases lap with
      | error e => exact (by decide : ("inconclusive" : String) ≠ "likelyReal")
      | ok vb =>
        cases hf with
        | error e => exact (by decide : ("inconclusive" : String) ≠ "likelyReal")
        | ok vc => exact verdictOf_ne_likelyReal (imageScore_ge_half va vb vc)
  · intro frames
    cases frames with
    | error e => exact (by decide : ("inconclusive" : String) ≠ "likelyReal")
    | ok frs =>
      exact verdictOf_ne_likelyReal (videoScore_ge_half _ _ _)

end AIdentify
